import Mathlib

/-!
Verification of the ActionXS Recorder capture-and-transcode pipeline.

This file gives a shallow embedding of the recorder's core logic:
* the content script (`src/unnamed/part_000`): element info, sensitive-input
  classification, selector generation, the single shared debounce slot;
* the background service worker (`src/libs/background.js`): the action log,
  navigation handling, pause/resume/stop/cleanup, and the export transcoder
  (`convertToRPAFormat`, `convertActionToAdsPowerRPA`,
  `generateIntelligentWaitAction`, `addSmartWaitTimes`).

JavaScript objects become Lean structures with `Option` fields (a `none`
field models an absent key); JS string/number truthiness is modelled
explicitly (`""` and `0` are falsy).  Wall-clock reads (`Date.now()`) become
an explicit `now : Nat` parameter.  Timestamps and durations are `Nat`
(milliseconds).
-/

namespace ActionXS

/-! ## String utilities

`strContains s pat` models JavaScript `s.includes(pat)` (substring test).
-/

/-- Does the first character list occur at the head of the second?  (Used
only to build `strContains`.) -/
def charsLead : List Char → List Char → Bool
  | [], _ => true
  | _ :: _, [] => false
  | p :: ps, c :: cs => p == c && charsLead ps cs

/-- Does `pat` occur as a contiguous sublist of `s`? -/
def charsContain (s pat : List Char) : Bool :=
  match s with
  | [] => charsLead pat []
  | _ :: t => charsLead pat s || charsContain t pat

/-- JavaScript `s.includes(pat)`. -/
def strContains (s pat : String) : Bool :=
  charsContain s.data pat.data

/-- `s.toLowerCase()` (structurally, so that proofs can evaluate it). -/
def strLower (s : String) : String :=
  ⟨s.data.map Char.toLower⟩

/-- `s.trim()` (structurally). -/
def strTrim (s : String) : String :=
  ⟨((s.data.dropWhile Char.isWhitespace).reverse.dropWhile Char.isWhitespace).reverse⟩

/-- `s.startsWith(pre)` (structurally). -/
def strLeads (s pre : String) : Bool :=
  charsLead pre.data s.data

/-- `s.substring(0, n)` (structurally). -/
def strTake (s : String) (n : Nat) : String :=
  ⟨s.data.take n⟩

/-- Split on a character class, dropping nothing; used with a whitespace
class plus an empty-string filter this models `split(/\s+/)` on a trimmed
string. -/
def splitOnPred (p : Char → Bool) : List Char → List Char → List (List Char)
  | [], acc => [acc.reverse]
  | c :: cs, acc =>
      if p c then acc.reverse :: splitOnPred p cs []
      else splitOnPred p cs (c :: acc)

/-- JavaScript `a || b` for an optional string: `none` and `""` are falsy. -/
def strOr (o : Option String) (d : String) : String :=
  match o with
  | some s => if s = "" then d else s
  | none => d

/-- JavaScript `a || b` for an optional number: `none` and `0` are falsy. -/
def natOr (o : Option Nat) (d : Nat) : Nat :=
  match o with
  | some n => if n = 0 then d else n
  | none => d

/-! ## Source actions

`SrcConfig` is the union of all `config` keys that captured actions carry
in the source; an absent key is `none`. -/

structure SrcConfig where
  url : Option String := none
  timeout : Option Nat := none
  timeoutType : Option String := none
  timeoutMin : Option Nat := none
  timeoutMax : Option Nat := none
  remark : Option String := none
  timestamp : Option Nat := none
  selector : Option String := none
  content : Option String := none
  inputType : Option String := none
  tagName : Option String := none
  placeholder : Option String := none
  ariaLabel : Option String := none
  title : Option String := none
  text : Option String := none
  value : Option String := none
  key : Option String := none
  ktype : Option String := none
  scrollX : Option Nat := none
  scrollY : Option Nat := none
  distance : Option Nat := none
  target : Option String := none
  direction : Option String := none
deriving DecidableEq, Repr

/-- A captured (source) action: a `type` discriminator and a config bag. -/
structure SrcAction where
  type : String
  config : SrcConfig
deriving DecidableEq, Repr

/-! ## The DOM snapshot used by the content script

`Elem` is the attribute snapshot the tracker reads from a DOM element; the
empty string models an absent attribute (JS falsy).  A `Doc` is the list of
non-`body` elements of the page, in document order; `parent = none` means
the element's parent is `document.body`. -/

structure Elem where
  tag : String := ""            -- tagName, lower-cased
  id : String := ""
  className : String := ""
  name : String := ""
  dataTestid : String := ""     -- data-testid
  dataTest : String := ""       -- data-test
  dataCy : String := ""         -- data-cy
  dataAutomation : String := "" -- data-automation
  ariaLabel : String := ""      -- aria-label
  role : String := ""
  eType : String := ""          -- element.type
  value : String := ""
  placeholder : String := ""
  title : String := ""
  hasOnclick : Bool := false    -- element.onclick truthy
  cursorPointer : Bool := false -- style.cursor === 'pointer'
  textContent : String := ""
  parent : Option Nat := none
deriving DecidableEq, Repr

structure Doc where
  elems : List Elem
deriving Repr

/-- CSS selectors as produced by `generateSelector`, as an ADT with its own
matching semantics (the source builds escaped strings; `CSS.escape`
guarantees the selector denotes the raw attribute value, so matching
compares raw values). -/
structure Seg where
  tag : String
  classes : List String
  nth : Option Nat
deriving DecidableEq, Repr

inductive Sel where
  | sid (v : String)                -- #v
  | sattr (attr v : String)         -- [attr="v"]
  | sclasses (cs : List String)     -- .c1.c2...
  | srole (r : String)              -- [role="r"]
  | sroleAria (r v : String)        -- [role="r"][aria-label="v"]
  | spath (segs : List Seg)         -- seg > seg > ... (child combinator)
deriving DecidableEq, Repr

/-- Attribute lookup used by attribute-equals selectors. -/
def getAttr (e : Elem) : String → String
  | "name" => e.name
  | "aria-label" => e.ariaLabel
  | "data-testid" => e.dataTestid
  | "data-test" => e.dataTest
  | "data-cy" => e.dataCy
  | "data-automation" => e.dataAutomation
  | "role" => e.role
  | _ => ""

/-- `className.trim().split(/\s+/).filter(cls => cls)`. -/
def classList (e : Elem) : List String :=
  ((splitOnPred Char.isWhitespace e.className.data []).map fun l => (⟨l⟩ : String)).filter
    (· ≠ "")

def childrenOf (d : Doc) (p : Option Nat) : List Nat :=
  (List.range d.elems.length).filter fun j =>
    match d.elems[j]? with
    | some e => e.parent == p
    | none => false

/-- Indices of the same-tag siblings of element `i` (including `i`),
in document order — the denotation of `:nth-of-type` counting and of the
sibling scan in the path builder. -/
def sameTagSiblings (d : Doc) (i : Nat) : List Nat :=
  match d.elems[i]? with
  | some e =>
      (childrenOf d e.parent).filter fun j =>
        match d.elems[j]? with
        | some e' => e'.tag == e.tag
        | none => false
  | none => []

/-- 1-based position of `i` among its same-tag siblings
(`siblings.indexOf(current) + 1`). -/
def nthOfType (d : Doc) (i : Nat) : Nat :=
  (sameTagSiblings d i).indexOf i + 1

def segMatches (d : Doc) (i : Nat) (g : Seg) : Bool :=
  match d.elems[i]? with
  | some e =>
      e.tag == g.tag && g.classes.all (fun c => (classList e).contains c) &&
      (match g.nth with
       | none => true
       | some n => nthOfType d i == n)
  | none => false

def parentOf (d : Doc) (i : Nat) : Option Nat :=
  match d.elems[i]? with
  | some e => e.parent
  | none => none

/-- Match a reversed segment chain (head = rightmost segment) at element
`i`, walking up through parents (CSS `>` child combinator). -/
def matchRev (d : Doc) : List Seg → Nat → Bool
  | [], _ => true
  | g :: gs, i =>
      segMatches d i g &&
      (match gs with
       | [] => true
       | _ :: _ =>
           match parentOf d i with
           | some j => matchRev d gs j
           | none => false)

/-- Does element `i` of `d` match selector `s`? -/
def elemMatches (d : Doc) (i : Nat) (s : Sel) : Bool :=
  match d.elems[i]? with
  | none => false
  | some e =>
      match s with
      | .sid v => e.id == v
      | .sattr a v => getAttr e a == v
      | .sclasses cs => cs.all fun c => (classList e).contains c
      | .srole r => e.role == r
      | .sroleAria r v => e.role == r && e.ariaLabel == v
      | .spath segs => matchRev d segs.reverse i

/-- `document.querySelectorAll(s).length`. -/
def countMatches (d : Doc) (s : Sel) : Nat :=
  ((List.range d.elems.length).filter fun i => elemMatches d i s).length

/-- The "generated / hashed-looking" class test of
`/^(ui-|css-|_|.*\d+.*|.*-\d+.*)/` — a class fails it when it starts with
`ui-`, `css-` or `_`, or contains a digit (the fourth alternative is
subsumed by the third). -/
def notGenerated (c : String) : Bool :=
  !(strLeads c "ui-" || strLeads c "css-" || strLeads c "_" ||
    c.data.any Char.isDigit)

/-- "Meaningful" single class for the single-class attempt:
not generated-looking and longer than 2 characters. -/
def meaningfulClass (c : String) : Bool :=
  notGenerated c && c.length > 2

/-- First attribute in the list that is non-empty and whose
attribute-equals selector matches exactly one element. -/
def firstUniqueAttr (d : Doc) : List (String × String) → Option Sel
  | [] => none
  | (a, v) :: rest =>
      if v ≠ "" ∧ countMatches d (.sattr a v) = 1 then some (.sattr a v)
      else firstUniqueAttr d rest

/-- First class in the list whose single-class selector matches exactly one
element. -/
def firstUniqueClass (d : Doc) : List String → Option Sel
  | [] => none
  | c :: rest =>
      if countMatches d (.sclasses [c]) = 1 then some (.sclasses [c])
      else firstUniqueClass d rest

/-- One `tag[.c1[.c2]][:nth-of-type(n)]` segment of the fallback path.
Note: the path builder's class filter drops only generated-looking classes
(no minimum length, unlike the single-class attempt) and keeps at most two. -/
def buildSeg (d : Doc) (j : Nat) (e : Elem) : Seg :=
  let cls := if e.className ≠ "" then ((classList e).filter notGenerated).take 2 else []
  let sibs := sameTagSiblings d j
  let nth := if sibs.length > 1 then some (sibs.indexOf j + 1) else none
  ⟨e.tag, cls, nth⟩

/-- The ancestor walk of the fallback: prepend one segment per level,
stop at `document.body` (`parent = none`) or once the path holds more than
4 segments.  `fuel` bounds the walk; 5 suffices since each step adds one
segment and the loop breaks at length 5. -/
def buildPath (d : Doc) : Nat → Option Nat → List Seg → List Seg
  | 0, _, acc => acc
  | _ + 1, none, acc => acc
  | fuel + 1, some j, acc =>
      match d.elems[j]? with
      | none => acc
      | some e =>
          let acc' := buildSeg d j e :: acc
          if acc'.length > 4 then acc' else buildPath d fuel e.parent acc'

/-- `generateSelector` (content script, lines 488–620): the priority chain
id → data attributes → name → full class combination → single meaningful
class → aria-label → role → role+aria-label → ancestor path.  All branches
except role+aria-label and the path verify uniqueness before returning. -/
def generateSelector (d : Doc) (i : Nat) : Sel :=
  match d.elems[i]? with
  | none => .spath []
  | some e =>
      if e.id ≠ "" ∧ countMatches d (.sid e.id) = 1 then .sid e.id
      else match firstUniqueAttr d
          [("data-testid", e.dataTestid), ("data-test", e.dataTest),
           ("data-cy", e.dataCy), ("data-automation", e.dataAutomation)] with
      | some s => s
      | none =>
      if e.name ≠ "" ∧ countMatches d (.sattr "name" e.name) = 1 then
        .sattr "name" e.name
      else
      match
        (if e.className ≠ "" ∧ classList e ≠ [] then
          (if countMatches d (.sclasses (classList e)) = 1 then
            some (Sel.sclasses (classList e))
          else firstUniqueClass d ((classList e).filter meaningfulClass))
        else none) with
      | some s => s
      | none =>
      if e.ariaLabel ≠ "" ∧ countMatches d (.sattr "aria-label" e.ariaLabel) = 1 then
        .sattr "aria-label" e.ariaLabel
      else
      match
        (if e.role ≠ "" then
          (if countMatches d (.srole e.role) = 1 then some (Sel.srole e.role)
           else if e.ariaLabel ≠ "" then some (Sel.sroleAria e.role e.ariaLabel)
           else none)
        else none) with
      | some s => s
      | none => .spath (buildPath d 5 (some i) [])

/-- Render a selector ADT back to the string the source builds (modulo
`CSS.escape`, which the ADT matching semantics absorbs). -/
def segToString (g : Seg) : String :=
  g.tag ++ String.join (g.classes.map ("." ++ ·)) ++
  (match g.nth with
   | some n => ":nth-of-type(" ++ toString n ++ ")"
   | none => "")

def selToString : Sel → String
  | .sid v => "#" ++ v
  | .sattr a v => "[" ++ a ++ "=\"" ++ v ++ "\"]"
  | .sclasses cs => String.join (cs.map ("." ++ ·))
  | .srole r => "[role=\"" ++ r ++ "\"]"
  | .sroleAria r v => "[role=\"" ++ r ++ "\"][aria-label=\"" ++ v ++ "\"]"
  | .spath segs => String.intercalate " > " (segs.map segToString)

/-! ## Interaction tracker (content script)

The class defines `isInputElement`, `isSensitiveInput` and `getElementText`
twice; under JavaScript class semantics the later body wins, so the later
definitions below carry the source names and the earlier (dead) ones are
kept under `...FirstDef` names. -/

/-- First (overridden, non-executing) `isSensitiveInput`, lines 663–686:
types password/email, ten keywords, checked against name, id *and*
placeholder joined by spaces. -/
def isSensitiveInputFirstDef (e : Elem) : Bool :=
  let ty := strLower e.eType
  let nm := strLower e.name
  let idl := strLower e.id
  let ph := strLower e.placeholder
  let sensitiveTypes := ["password", "email"]
  let sensitiveKeywords :=
    ["password", "pass", "pwd", "secret", "token", "key", "credit", "card", "cvv", "ssn"]
  sensitiveTypes.contains ty ||
    sensitiveKeywords.any fun kw => strContains (nm ++ " " ++ idl ++ " " ++ ph) kw

/-- The executing `isInputElement` (second definition, lines 731–734):
only the three tags, no contenteditable. -/
def isInputElement (e : Elem) : Bool :=
  ["input", "textarea", "select"].contains e.tag

/-- The executing `isSensitiveInput` (second definition, lines 739–751):
types password/hidden, six keywords, checked against name and id only —
the placeholder and the keywords credit/card/cvv/ssn are *not* checked. -/
def isSensitiveInput (e : Elem) : Bool :=
  let sensitiveTypes := ["password", "hidden"]
  let sensitiveNames := ["password", "pass", "pwd", "secret", "token", "key"]
  let ty := strLower e.eType
  let nm := strLower e.name
  let idl := strLower e.id
  sensitiveTypes.contains ty ||
    sensitiveNames.any fun s => strContains nm s || strContains idl s

/-- The executing `getElementText` (second definition, lines 708–726). -/
def getElementText (e : Elem) : String :=
  if isInputElement e then strOr (some e.placeholder) (strOr (some e.ariaLabel) "")
  else
    let t := strTrim e.textContent
    if t.length > 100 then strTake t 100 ++ "..." else t

def isInteractiveElement (e : Elem) : Bool :=
  ["a", "button", "input", "select", "textarea"].contains e.tag ||
    e.hasOnclick || e.role == "button" || e.cursorPointer

/-- The tracker's mutable state: `pending` is the single shared debounce
slot (`this.debounceTimer` plus the action its callback would record),
`emitted` the stream of actions sent to the background via
`notifyBackgroundScript('recorder', ...)`. -/
structure Tracker where
  pending : Option (SrcAction × Nat) := none
  emitted : List SrcAction := []
  lastAction : Option SrcAction := none
  lastScrollY : Nat := 0
deriving Repr

def natDist (a b : Nat) : Nat := if a ≥ b then a - b else b - a

/-- `isDuplicateAction`, lines 791–812. -/
def isDuplicateAction (tr : Tracker) (a : SrcAction) : Bool :=
  match tr.lastAction with
  | none => false
  | some la =>
      if la.type ≠ a.type then false
      else if a.type = "click" then
        la.config.selector == a.config.selector &&
          (match la.config.timestamp, a.config.timestamp with
           | some t1, some t2 => natDist t1 t2 < 500
           | _, _ => false)
      else if a.type = "inputContent" then
        la.config.selector == a.config.selector &&
          la.config.content == a.config.content
      else if a.type = "scrollPage" then
        (match la.config.scrollY, a.config.scrollY with
         | some y1, some y2 => natDist y1 y2 < 50
         | _, _ => false)
      else false

/-- `recordAction`: immediate emission with duplicate suppression. -/
def recordAction (tr : Tracker) (a : SrcAction) : Tracker :=
  if isDuplicateAction tr a then tr
  else { tr with lastAction := some a, emitted := tr.emitted ++ [a] }

/-- `recordActionDebounced`, lines 475–483: clears the single shared timer
and schedules `a` after `delay` ms — any pending not-yet-flushed action is
silently dropped. -/
def recordActionDebounced (tr : Tracker) (a : SrcAction) (delay : Nat) : Tracker :=
  { tr with pending := some (a, delay) }

/-- The debounce timer fires: the pending action is recorded. -/
def flushPending (tr : Tracker) : Tracker :=
  match tr.pending with
  | some (a, _) => recordAction { tr with pending := none } a
  | none => tr

/-- The inputContent action `handleInput` would schedule for element `i`,
or `none` when the element is rejected (not an input surface, or sensitive).
The source computes the selector before the sensitive check, but emission
is decided purely by `isInputElement` and `isSensitiveInput`. -/
def handleInputAction (d : Doc) (i : Nat) (now : Nat) : Option SrcAction :=
  match d.elems[i]? with
  | none => none
  | some e =>
      if !isInputElement e then none
      else if isSensitiveInput e then none
      else some
        { type := "inputContent"
          config :=
            { selector := some (selToString (generateSelector d i))
              content := some e.value
              inputType := some (if e.eType = "" then "text" else e.eType)
              tagName := some e.tag
              placeholder := some e.placeholder
              ariaLabel := some e.ariaLabel
              title := some e.title
              timestamp := some now } }

/-- `handleInput`, lines 285–319: schedule the input action on the shared
debounce slot with a 1000 ms delay. -/
def handleInput (d : Doc) (i : Nat) (now : Nat) (tr : Tracker) : Tracker :=
  match handleInputAction d i now with
  | some a => recordActionDebounced tr a 1000
  | none => tr

/-- The scrollPage action built by `handleScroll`; `tgt` is `'window'` for
document scrolls, else the target's generated selector. -/
def scrollAction (tr : Tracker) (sx sy : Nat) (tgt : String) (now : Nat) : SrcAction :=
  { type := "scrollPage"
    config :=
      { scrollX := some sx
        scrollY := some sy
        distance := some (natDist sy tr.lastScrollY)
        target := some tgt
        direction := some (if sy > tr.lastScrollY then "down" else "up")
        timestamp := some now } }

/-- `handleScroll`, lines 351–376: update `lastScrollY` and schedule on the
shared debounce slot with a 500 ms delay. -/
def handleScroll (tr : Tracker) (sx sy : Nat) (tgt : String) (now : Nat) : Tracker :=
  recordActionDebounced { tr with lastScrollY := sy } (scrollAction tr sx sy tgt now) 500

/-- The hover (`passingElement`) action built by `handleMouseEnter`. -/
def hoverAction (d : Doc) (i : Nat) (e : Elem) (now : Nat) : SrcAction :=
  { type := "passingElement"
    config :=
      { selector := some (selToString (generateSelector d i))
        tagName := some e.tag
        text := some (getElementText e)
        timestamp := some now } }

/-- `handleMouseEnter`, lines 409–431: interactive elements only, scheduled
on the shared debounce slot with a 2000 ms delay. -/
def handleMouseEnter (d : Doc) (i : Nat) (now : Nat) (tr : Tracker) : Tracker :=
  match d.elems[i]? with
  | some e =>
      if isInteractiveElement e then recordActionDebounced tr (hoverAction d i e now) 2000
      else tr
  | none => tr

/-! ## Background service worker state (`src/libs/background.js`)

`waitTimer` models `this.waitTimer` (the 500 ms debounced-save timer):
`some delay` while a timer is pending, `none` when cleared.  Badge,
storage and listener (de)registration are I/O outside the model. -/

structure BGState where
  recordedActions : List SrcAction := []
  recordingStatus : String := ""
  isPaused : Bool := false
  pendingBlurContent : Option SrcAction := none
  waitTimer : Option Nat := none
deriving Repr

/-- `updateRecordedActions`, lines 213–237: drop while paused, skip an
action stringifying equal to the last one, else append and (re)arm the
500 ms save timer. -/
def updateRecordedActions (s : BGState) (a : SrcAction) : BGState :=
  if s.isPaused then s
  else if s.recordedActions.getLast? = some a then s
  else { s with recordedActions := s.recordedActions ++ [a], waitTimer := some 500 }

/-- The synthetic tab-cleanup action of `handleNavigation`. -/
def closeOtherPageAction (now : Nat) : SrcAction :=
  { type := "closeOtherPage", config := { timestamp := some now } }

/-- The synthetic post-navigation wait of `handleNavigation`. -/
def navigationWaitAction (now : Nat) : SrcAction :=
  { type := "waitTime"
    config :=
      { timeout := some 5000
        timeoutType := some "randomInterval"
        timeoutMin := some 3000
        timeoutMax := some 8000
        remark := some ""
        timestamp := some now } }

/-- `handleNavigation`, lines 346–380: always return the status to
Recording, and for the main frame (`frameId = 0`) append the synthetic
closeOtherPage and waitTime actions. -/
def handleNavigation (now frameId : Nat) (s : BGState) : BGState :=
  let s1 := { s with recordingStatus := "REC" }
  if frameId = 0 then
    updateRecordedActions (updateRecordedActions s1 (closeOtherPageAction now))
      (navigationWaitAction now)
  else s1

/-- `handleWaitState` (before-navigate), lines 242–254: flush any pending
blur-staged action, then mark the session Waiting. -/
def handleWaitState (s : BGState) : BGState :=
  let s' :=
    match s.pendingBlurContent with
    | some a =>
        if !s.isPaused then { updateRecordedActions s a with pendingBlurContent := none }
        else s
    | none => s
  { s' with recordingStatus := "WAIT" }

/-- `stopRecording`, lines 144–170: clear the save timer and mark the
session Completed.  `pendingBlurContent` is left untouched. -/
def stopRecording (s : BGState) : BGState :=
  { s with waitTimer := none, recordingStatus := "OK" }

/-- `cleanup`, lines 79–95 (also the `restart` message case): reset log,
status, pause flag and blur slot.  `waitTimer` is left untouched. -/
def cleanup (s : BGState) : BGState :=
  { s with recordedActions := [], recordingStatus := "", isPaused := false,
           pendingBlurContent := none }

/-- The `pause` message case of `setupMessageListener`, lines 983–990:
toggle the pause flag and derive the status from it. -/
def pauseCommand (s : BGState) : BGState :=
  let p := !s.isPaused
  { s with isPaused := p, recordingStatus := if p then "PAUSE" else "REC" }

/-- `resumeRecording`, lines 443–446 (the `resume` message case). -/
def resumeRecording (s : BGState) : BGState :=
  { s with isPaused := false, recordingStatus := "REC" }

/-! ## Transcoder output schema

`RPAConfig` is the union of the config keys the converters emit; an absent
key is `none`.  `ctype` models the JSON key `"type"` *inside* `config`
(e.g. `"Enter"`, `"smooth"`, `"click"`); `randomInputNumMinTenths = 5`
models the JSON `randomInputNum.min = 0.5` in tenths. -/

structure RPAConfig where
  executionIndex : Option Nat := none
  timestamp : Option Nat := none
  remark : Option String := none
  timeout : Option Nat := none
  timeoutMin : Option Nat := none
  timeoutMax : Option Nat := none
  timeoutType : Option String := none
  executionDelay : Option Nat := none
  humanLike : Option Bool := none
  precision : Option String := none
  waitForComplete : Option Bool := none
  url : Option String := none
  waitForLoad : Option Bool := none
  retryOnFail : Option Nat := none
  button : Option String := none
  selector : Option String := none
  serial : Option Nat := none
  ctype : Option String := none
  selectorRadio : Option String := none
  selectorType : Option String := none
  element : Option String := none
  serialType : Option String := none
  serialMin : Option Nat := none
  serialMax : Option Nat := none
  waitBeforeClick : Option Nat := none
  scrollIntoView : Option Bool := none
  content : Option String := none
  intervals : Option Nat := none
  isRandom : Option String := none
  isClear : Option String := none
  randomContent : Option String := none
  randomInputNumMinTenths : Option Nat := none
  randomInputNumMaxTenths : Option Nat := none
  waitBeforeInput : Option Nat := none
  simulateHuman : Option Bool := none
  delay : Option Nat := none
  waitAfter : Option Nat := none
  excludeCurrent : Option Bool := none
  confirmClose : Option Bool := none
  distance : Option Nat := none
  scrollType : Option String := none
  rangeType : Option String := none
  position : Option String := none
  waitAfterScroll : Option Nat := none
  randomWheelDistance : Option (Nat × Nat) := none
  randomWheelSleepTime : Option (Nat × Nat) := none
  scrollSpeed : Option String := none
deriving DecidableEq, Repr

/-- One target-script action. -/
structure RPAAction where
  type : String
  config : RPAConfig
deriving DecidableEq, Repr

/-! ## Transcoder (`convertToRPAFormat` and helpers) -/

/-- `generateActionRemark`, lines 829–843. -/
def generateActionRemark (a : SrcAction) : String :=
  if a.type = "newPage" then "Open new browser tab"
  else if a.type = "gotoUrl" then "Navigate to " ++ strOr a.config.url "URL"
  else if a.type = "click" then
    "Click on " ++ strOr a.config.text (strOr a.config.selector "element")
  else if a.type = "inputContent" then "Type \"" ++ strOr a.config.content "text" ++ "\""
  else if a.type = "keyboard" then "Press " ++ strOr a.config.key (strOr a.config.ktype "key")
  else if a.type = "scrollPage" then
    "Scroll " ++ toString (natOr a.config.distance 300) ++ "px down"
  else if a.type = "waitTime" then "Wait for page/element loading"
  else if a.type = "closeOtherPage" then "Close other browser tabs"
  else if a.type = "formSubmit" then "Submit form data"
  else "Execute " ++ a.type

def optType (o : Option SrcAction) : String :=
  match o with
  | some a => a.type
  | none => ""

/-- `generateWaitRemark`, lines 848–856. -/
def generateWaitRemark (last next : Option SrcAction) : String :=
  if optType last = "gotoUrl" then "Wait for page loading"
  else if optType last = "click" ∧ optType next = "inputContent" then "Wait for element focus"
  else if optType last = "scrollPage" then "Wait for scroll completion"
  else if optType last = "inputContent" then "Wait for input processing"
  else if optType last = "keyboard" then "Wait for action response"
  else "Natural human-like pause"

/-- `calculateTypingSpeed`, lines 812–824. -/
def calculateTypingSpeed (content : String) : Nat :=
  if content = "" then 200
  else if content.length < 10 then 150
  else if content.length < 30 then 200
  else if content.length < 100 then 300
  else 400

/-- The nominal timeout of `generateIntelligentWaitAction`: the elapsed
time clamped to `[1000, 30000]`, then bumped by the three context rules in
source order. -/
def intelligentNominal (timeDiff : Nat) (last next : Option SrcAction) : Nat :=
  let b0 := min (max timeDiff 1000) 30000
  let b1 := if optType last = "gotoUrl" ∨ optType last = "newPage" then max b0 5000 else b0
  let b2 := if optType last = "click" ∧ optType next = "inputContent" then max b1 2000 else b1
  if optType last = "scrollPage" then max b2 1500 else b2

/-- Round-to-nearest, ties to even, of `n / p` (`p` a positive power of
two in our uses, so `p / 2` is the exact halfway remainder). -/
def ulpRound (n p : Nat) : Nat :=
  if p ≤ 1 then n
  else
    if n % p < p / 2 then n / p
    else if p / 2 < n % p then n / p + 1
    else if n / p % 2 = 0 then n / p else n / p + 1

/-- Fuel-driven structural base-2 logarithm (`Nat.log2` itself is defined
by well-founded recursion and does not evaluate inside the kernel). -/
def log2Aux : Nat → Nat → Nat
  | 0, _ => 0
  | fuel + 1, n => if n ≥ 2 then log2Aux fuel (n / 2) + 1 else 0

def natLog2 (n : Nat) : Nat := log2Aux n n

/-- Round a nonnegative integer (an exact product of two doubles) to 53
significant bits, nearest-even — the IEEE-754 rounding step of a double
multiplication whose result lies in `[2^53, 2^68)`; products below `2^53`
are exact. -/
def roundProd (N : Nat) : Nat :=
  if N < 2 ^ 53 then N
  else ulpRound N (2 ^ (natLog2 N - 52)) * 2 ^ (natLog2 N - 52)

/-- `Math.floor(x * C)` in IEEE-754 double arithmetic, where the constant
`C = M / 2^shift` is itself a double (`2^52 ≤ M < 2^53`) and `x` is a
nonnegative integer below `2^53` (hence an exact double): the exact
product `x·M / 2^shift` is rounded to nearest-even at 53 significant bits,
then floored by a truncating division. -/
def floorMulPos (x M shift : Nat) : Nat :=
  roundProd (x * M) / 2 ^ shift

/-- `Math.floor(x * 0.7)`: the double literal `0.7` is
`6305039478318694 / 2^53` (the rounding of `0.7·2^53 = …694.4`), slightly
*below* 7/10 — so products such as `5130 * 0.7 = 3590.9999999999995`
floor one below the exact `⌊7x/10⌋`. -/
def floorMul07 (x : Nat) : Nat := floorMulPos x 6305039478318694 53

/-- `Math.floor(x * 1.4)`: the double literal `1.4` is
`6305039478318694 / 2^52` (the rounding of `1.4·2^52 = …694.4`), slightly
below 14/10. -/
def floorMul14 (x : Nat) : Nat := floorMulPos x 6305039478318694 52

/-- `generateIntelligentWaitAction`, lines 759–807.  The randomInterval
bounds are `Math.floor(b3 * 0.7)` and `Math.floor(b3 * 1.4)` computed in
IEEE double arithmetic (`floorMul07`/`floorMul14`); because the double
literals 0.7 and 1.4 lie slightly below the exact rationals, these differ
from `⌊7·b3/10⌋`/`⌊14·b3/10⌋` by one at some nominals (e.g. 5130). -/
def generateIntelligentWaitAction (timeDiff : Nat) (last next : Option SrcAction) : RPAAction :=
  let b3 := intelligentNominal timeDiff last next
  if b3 > 3000 then
    { type := "waitTime"
      config :=
        { timeoutType := some "randomInterval"
          timeout := some b3
          timeoutMin := some (floorMul07 b3)
          timeoutMax := some (floorMul14 b3)
          remark := some (generateWaitRemark last next)
          humanLike := some true } }
  else
    { type := "waitTime"
      config :=
        { timeout := some b3
          timeoutMax := some (b3 + 1000)
          timeoutMin := some (max (b3 - 500) 500)
          timeoutType := some "fixedValue"
          remark := some (generateWaitRemark last next)
          precision := some "high" } }

/-- `convertClickToAdsPowerRPA`, lines 625–664. -/
def convertClickToAdsPowerRPA (a : SrcAction) (now counter : Nat) : RPAAction :=
  let cfg := a.config
  let t := cfg.text.getD ""
  let al := cfg.ariaLabel.getD ""
  let rs : String × String :=
    if t ≠ "" ∧ strTrim t ≠ "" ∧ t.length < 50 then ("TEXT", strTrim t)
    else if al ≠ "" ∧ strTrim al ≠ "" ∧ t = "" then ("TEXT", strTrim al)
    else ("CSS", cfg.selector.getD "")
  { type := "click"
    config :=
      { button := some "left"
        selector := some rs.2
        serial := some 1
        ctype := some "click"
        selectorRadio := some rs.1
        selectorType := some "selector"
        element := some ""
        serialType := some "fixedValue"
        serialMin := some 1
        serialMax := some 50
        timeout := some 15000
        waitBeforeClick := some 500
        retryOnFail := some 2
        scrollIntoView := some true
        executionIndex := some counter
        timestamp := some now
        remark := some (generateActionRemark a) } }

/-- `convertInputToAdsPowerRPA`, lines 669–699. -/
def convertInputToAdsPowerRPA (a : SrcAction) (now counter : Nat) : RPAAction :=
  let cfg := a.config
  let content := strOr cfg.content (strOr cfg.value "")
  { type := "inputContent"
    config :=
      { content := some content
        intervals := some (calculateTypingSpeed content)
        selector := some (cfg.selector.getD "")
        serial := some 1
        selectorRadio := some "CSS"
        serialType := some "fixedValue"
        selectorType := some "selector"
        element := some ""
        serialMin := some 1
        serialMax := some 50
        isRandom := some "0"
        isClear := some "1"
        randomContent := some content
        randomInputNumMinTenths := some 5
        randomInputNumMaxTenths := some 20
        timeout := some 20000
        waitBeforeInput := some 300
        simulateHuman := some true
        executionIndex := some counter
        timestamp := some now
        remark := some (generateActionRemark a) } }

/-- `convertKeyboardToAdsPowerRPA`, lines 704–718. -/
def convertKeyboardToAdsPowerRPA (a : SrcAction) (now counter : Nat) : RPAAction :=
  let keyType := strOr a.config.key (strOr a.config.ktype "Enter")
  { type := "keyboard"
    config :=
      { ctype := some keyType
        delay := some 100
        waitAfter := some 500
        executionIndex := some counter
        timestamp := some now
        remark := some ("Keyboard input: " ++ keyType) } }

/-- `convertScrollToAdsPowerRPA`, lines 723–754.  (Its `lastAction`
parameter is unused in the source body and is dropped here.)  Note that a
source value below 100 is replaced by 300, not clamped to 100. -/
def convertScrollToAdsPowerRPA (a : SrcAction) (now counter : Nat) : RPAAction :=
  let cfg := a.config
  let d0 := natOr cfg.distance 300
  let d1 := match cfg.scrollY with
            | some y => y
            | none => d0
  let d2 := if d1 < 100 then 300 else d1
  { type := "scrollPage"
    config :=
      { distance := some d2
        scrollType := some "pixel"
        ctype := some "smooth"
        rangeType := some "window"
        selectorRadio := some "CSS"
        selector := some ""
        serial := some 1
        position := some "bottom"
        timeout := some 10000
        waitAfterScroll := some 1000
        randomWheelDistance := some (100, 200)
        randomWheelSleepTime := some (800, 1500)
        scrollSpeed := some "medium"
        executionIndex := some counter
        timestamp := some now
        remark := some (generateActionRemark a) } }

/-- `convertActionToAdsPowerRPA`, lines 541–620, as a list-valued function:
`[]` models the `null` of an unrecognized type, a two-element list the
formSubmit expansion. -/
def convertActionToAdsPowerRPA (now : Nat) (a : SrcAction) (counter : Nat) : List RPAAction :=
  if a.type = "newPage" then
    [{ type := "newPage"
       config :=
         { executionIndex := some counter
           timestamp := some now
           remark := some (generateActionRemark a)
           timeout := some 10000
           waitForComplete := some true } }]
  else if a.type = "gotoUrl" then
    [{ type := "gotoUrl"
       config :=
         { timeout := some 30000
           url := a.config.url
           waitForLoad := some true
           retryOnFail := some 2
           executionIndex := some counter
           timestamp := some now
           remark := some (generateActionRemark a) } }]
  else if a.type = "click" then [convertClickToAdsPowerRPA a now counter]
  else if a.type = "inputContent" then [convertInputToAdsPowerRPA a now counter]
  else if a.type = "keyboard" then [convertKeyboardToAdsPowerRPA a now counter]
  else if a.type = "scrollPage" then [convertScrollToAdsPowerRPA a now counter]
  else if a.type = "formSubmit" then
    [{ type := "keyboard"
       config :=
         { ctype := some "Enter"
           executionIndex := some counter
           timestamp := some now
           remark := some "Form submission via Enter key" } },
     { type := "waitTime"
       config :=
         { timeoutType := some "randomInterval"
           timeout := some 8000
           timeoutMin := some 5000
           timeoutMax := some 12000
           remark := some "Wait for form processing" } }]
  else if a.type = "closeOtherPage" then
    [{ type := "closeOtherPage"
       config :=
         { executionIndex := some counter
           timestamp := some now
           remark := some (generateActionRemark a)
           excludeCurrent := some true
           confirmClose := some false } }]
  else []

/-- `action.config?.timestamp || Date.now()` — note a `0` timestamp is
falsy in JS and falls back to the clock. -/
def tsOrNow (c : SrcConfig) (now : Nat) : Nat :=
  natOr c.timestamp now

/-- The gap-based wait of the main conversion loop: inserted when the
previous effective timestamp is truthy and the current one exceeds it by
more than 2000 ms. -/
def boundaryWaits (lt : Option Nat) (cur : Nat) (l : Option SrcAction) (a : SrcAction) :
    List RPAAction :=
  match lt with
  | some t =>
      if t ≠ 0 ∧ t < cur ∧ 2000 < cur - t then
        [generateIntelligentWaitAction (cur - t) l (some a)]
      else []
  | none => []

/-- The iteration of `convertToRPAFormat`, lines 487–517, with the loop
state (`lastAction`, `lastTimestamp`, `actionCounter`) made explicit. -/
def convertGo (now : Nat) : Option SrcAction → Option Nat → Nat → List SrcAction →
    List RPAAction
  | _, _, _, [] => []
  | l, lt, c, a :: rest =>
      let cur := tsOrNow a.config now
      let w := boundaryWaits lt cur l a
      let conv := convertActionToAdsPowerRPA now a (c + w.length)
      w ++ conv ++ convertGo now (some a) (some cur) (c + w.length + conv.length) rest

/-- The "final professional wait" appended when any output was produced. -/
def finalWaitAction : RPAAction :=
  { type := "waitTime"
    config :=
      { timeoutType := some "randomInterval"
        timeout := some 5000
        timeoutMin := some 3000
        timeoutMax := some 8000
        remark := some "Final completion wait"
        executionDelay := some 500 } }

/-- `convertToRPAFormat`, lines 477–536. -/
def convertToRPAFormat (now : Nat) (actions : List SrcAction) : List RPAAction :=
  match actions with
  | [] => []
  | _ :: _ =>
      let rpa := convertGo now none none 0 actions
      match rpa with
      | [] => []
      | _ :: _ => rpa ++ [finalWaitAction]

/-- `config?.selector?.includes(pat)` with optional chaining (absent
selector is falsy). -/
def selIncludes (o : Option String) (pat : String) : Bool :=
  match o with
  | some s => strContains s pat
  | none => false

/-- `shouldAddWaitAfter`, lines 882–900. -/
def shouldAddWaitAfter (a b : RPAAction) : Bool :=
  if a.type = "gotoUrl" then true
  else if a.type = "keyboard" ∧ a.config.ctype = some "Enter" then true
  else if a.type = "click" ∧
      (selIncludes a.config.selector "a[" || selIncludes a.config.selector "button") = true then
    true
  else if a.type ≠ b.type then true
  else false

/-- `generateSmartWaitAction`, lines 905–935; the three adjustments are
sequential in the source, so a click always ends at 2000 even when its
selector contains `a[`.  (Its `nextAction` parameter is unused in the
source body.) -/
def generateSmartWaitAction (a _next : RPAAction) : RPAAction :=
  let b1 :=
    if a.type = "gotoUrl" ∨ (a.type = "click" ∧ selIncludes a.config.selector "a[" = true) then
      8000
    else 3000
  let b2 :=
    if a.type = "inputContent" ∨ (a.type = "keyboard" ∧ a.config.ctype = some "Enter") then 5000
    else b1
  let b3 := if a.type = "click" then 2000 else b2
  { type := "waitTime"
    config :=
      { timeoutType := some "randomInterval"
        timeout := some b3
        timeoutMin := some (b3 * 8 / 10)
        timeoutMax := some (b3 * 15 / 10)
        remark := some "" } }

/-- The loop of `addSmartWaitTimes`, lines 861–877. -/
def addSmartGo : List RPAAction → List RPAAction
  | [] => []
  | a :: rest =>
      a ::
        ((match rest with
          | [] => []
          | b :: _ => if shouldAddWaitAfter a b then [generateSmartWaitAction a b] else []) ++
         addSmartGo rest)

def addSmartWaitTimes (xs : List RPAAction) : List RPAAction :=
  addSmartGo xs

/-- The `export` message case, lines 997–1002:
`addSmartWaitTimes(convertToRPAFormat(actions))`. -/
def exportRPA (now : Nat) (actions : List SrcAction) : List RPAAction :=
  addSmartWaitTimes (convertToRPAFormat now actions)

/-! ## Auxiliary notions used in theorem statements -/

/-- Selector shapes produced only by the uniqueness-checked branches of
`generateSelector` (id, data attributes, name, class combination, single
class, aria-label, bare role); the role+aria-label combination and the
ancestor path are produced without a uniqueness check. -/
def checkedShape : Sel → Bool
  | .sid _ => true
  | .sattr _ _ => true
  | .sclasses _ => true
  | .srole _ => true
  | .sroleAria _ _ => false
  | .spath _ => false

/-- Erase the wall-clock `timestamp` config field of a target action. -/
def eraseTs (r : RPAAction) : RPAAction :=
  { r with config := { r.config with timestamp := none } }

/-! ## Concrete inputs used by witnesses and counterexamples -/

/-- A scroll capture whose scroll offset is below 100. -/
def demoScrollSrc : SrcAction :=
  { type := "scrollPage", config := { scrollY := some 50, timestamp := some 1000 } }

/-- A blur-staged input action. -/
def demoBlurStaged : SrcAction :=
  { type := "inputContent"
    config := { selector := some "#email", content := some "draft", timestamp := some 1 } }

/-- A mid-session service state with a staged blur action and an armed
save timer. -/
def demoBusyState : BGState :=
  { recordedActions := [], recordingStatus := "REC", isPaused := false,
    pendingBlurContent := some demoBlurStaged, waitTimer := some 500 }

/-- A consistent recording-state (not paused, status `REC`). -/
def demoRecState : BGState :=
  { recordingStatus := "REC" }

/-- A plain text input with a unique id. -/
def demoInputElem : Elem :=
  { tag := "input", eType := "text", id := "q1", name := "q", value := "hello",
    placeholder := "Search" }

def demoInputDoc : Doc := ⟨[demoInputElem]⟩

/-- A pending (not yet flushed) hover action sitting in the debounce slot. -/
def demoHoverPending : SrcAction :=
  { type := "passingElement", config := { selector := some ".menu", timestamp := some 2 } }

def demoPendingTracker : Tracker := { pending := some (demoHoverPending, 2000) }

/-- The input action `handleInput` builds for `demoInputDoc` element 0 at
time 7. -/
def demoExpectedInput : SrcAction :=
  { type := "inputContent"
    config :=
      { selector := some "#q1", content := some "hello", inputType := some "text",
        tagName := some "input", placeholder := some "Search", ariaLabel := some "",
        title := some "", timestamp := some 7 } }

/-- A text input whose placeholder (but neither name nor id) contains the
sensitive keyword `password`. -/
def demoPlaceholderElem : Elem :=
  { tag := "input", eType := "text", id := "fld1", name := "q",
    placeholder := "Enter your password", value := "hunter2" }

def demoPlaceholderDoc : Doc := ⟨[demoPlaceholderElem]⟩

/-- A text input whose name contains the sensitive keyword `password`. -/
def demoSensitiveElem : Elem :=
  { tag := "input", eType := "text", id := "x", name := "user-password", value := "s3cret" }

def demoSensitiveDoc : Doc := ⟨[demoSensitiveElem]⟩

/-- Two identical elements carrying the same role and aria-label. -/
def demoRoleElem : Elem :=
  { tag := "div", role := "button", ariaLabel := "Close" }

def demoRoleDoc : Doc := ⟨[demoRoleElem, demoRoleElem]⟩

/-- A click followed 8000 ms later by an input. -/
def demoClickSrc : SrcAction :=
  { type := "click", config := { selector := some "#btn", timestamp := some 1000 } }

def demoTypeSrc : SrcAction :=
  { type := "inputContent"
    config := { selector := some "#q", content := some "hi", timestamp := some 9000 } }

/-- A click followed 5130 ms later by an input: at nominal 5130 the IEEE
band floors land one below the exact rational floors. -/
def demoGapClickSrc : SrcAction :=
  { type := "click", config := { selector := some "#btn2", timestamp := some 1000 } }

def demoGapTypeSrc : SrcAction :=
  { type := "inputContent"
    config := { selector := some "#q2", content := some "x", timestamp := some 6130 } }

/-- A one-action log whose action carries a timestamp. -/
def demoTsLog : List SrcAction :=
  [{ type := "newPage", config := { timestamp := some 100 } }]

/-- Two adjacent target actions triggering the smart-wait rules. -/
def demoGotoRPA : RPAAction := { type := "gotoUrl", config := {} }

def demoClickRPA : RPAAction := { type := "click", config := {} }

/-! # Theorems -/

/-! ## C7 — scrollPage distance mapping -/

/-- **C7** (amended).  The transcoded scroll distance equals the source
`scrollY` when present, else `distance || 300`; but a value below 100 is
replaced by **300** (not clamped to 100 as the claim states). -/
theorem convertScrollToAdsPowerRPA_distance_spec (a : SrcAction) (now counter : Nat) :
    (∀ y, a.config.scrollY = some y → 100 ≤ y →
       (convertScrollToAdsPowerRPA a now counter).config.distance = some y) ∧
    (∀ y, a.config.scrollY = some y → y < 100 →
       (convertScrollToAdsPowerRPA a now counter).config.distance = some 300) ∧
    (a.config.scrollY = none →
       (convertScrollToAdsPowerRPA a now counter).config.distance =
         some (if natOr a.config.distance 300 < 100 then 300
               else natOr a.config.distance 300)) := by
  refine ⟨fun y hy hge => ?_, fun y hy hlt => ?_, fun h => ?_⟩
  · simp only [convertScrollToAdsPowerRPA, hy]
    simp only [Option.some.injEq]
    rw [if_neg (by omega)]
  · simp only [convertScrollToAdsPowerRPA, hy]
    simp only [Option.some.injEq]
    rw [if_pos hlt]
  · simp only [convertScrollToAdsPowerRPA, h]

/-- **C7** witness: a scroll with `scrollY = 50` transcodes to distance
300. -/
theorem convertScrollToAdsPowerRPA_distance_witness :
    (convertScrollToAdsPowerRPA demoScrollSrc 0 0).config.distance = some 300 :=
  (convertScrollToAdsPowerRPA_distance_spec demoScrollSrc 0 0).2.1 50 rfl (by decide)

/-- **C7** counterexample: the claim predicts distance exactly 100 for a
source value below 100, but the code produces 300. -/
theorem convertScrollToAdsPowerRPA_distance_counterexample :
    (convertScrollToAdsPowerRPA demoScrollSrc 0 0).config.distance = some 300 ∧
    (convertScrollToAdsPowerRPA demoScrollSrc 0 0).config.distance ≠ some 100 := by
  exact ⟨by decide, by decide⟩

/-! ## C8 — stop / restart versus timers and blur slot -/

/-- **C8** (amended).  `stopRecording` clears the save timer but leaves any
blur-staged content untouched; `cleanup` (the restart path) discards the
blur-staged content but leaves the timer untouched. -/
theorem stop_cleanup_spec (s : BGState) :
    (stopRecording s).waitTimer = none ∧
    (stopRecording s).pendingBlurContent = s.pendingBlurContent ∧
    (cleanup s).pendingBlurContent = none ∧
    (cleanup s).waitTimer = s.waitTimer :=
  ⟨rfl, rfl, rfl, rfl⟩

/-- **C8** counterexample: from a state with a staged blur action and an
armed timer, stop leaves the blur slot non-null and restart leaves the
timer non-null, refuting the claim that both paths clear both. -/
theorem stop_cleanup_counterexample :
    (stopRecording demoBusyState).pendingBlurContent = some demoBlurStaged ∧
    (stopRecording demoBusyState).pendingBlurContent ≠ none ∧
    (cleanup demoBusyState).waitTimer = some 500 ∧
    (cleanup demoBusyState).waitTimer ≠ none := by
  refine ⟨rfl, by decide, rfl, by decide⟩

/-! ## C10 — pause toggling and resume -/

/-- **C10** (confirmed).  From any state whose status is consistent with
its pause flag, two pause commands restore the state exactly (the first
flips Recording↔Paused, the second flips it back), and `resumeRecording`
unconditionally clears the flag and sets the status to Recording. -/
theorem pause_toggle_resume_spec (s : BGState)
    (h : s.recordingStatus = if s.isPaused then "PAUSE" else "REC") :
    pauseCommand (pauseCommand s) = s ∧
    (pauseCommand s).isPaused = !s.isPaused ∧
    (pauseCommand s).recordingStatus = (if s.isPaused then "REC" else "PAUSE") ∧
    (resumeRecording s).isPaused = false ∧
    (resumeRecording s).recordingStatus = "REC" := by
  obtain ⟨ra, st, p, pbc, wt⟩ := s
  cases p <;> simp_all [pauseCommand, resumeRecording]

/-- **C10** witness at a concrete recording state. -/
theorem pause_toggle_resume_witness :
    pauseCommand (pauseCommand demoRecState) = demoRecState ∧
    (pauseCommand demoRecState).isPaused = !demoRecState.isPaused ∧
    (pauseCommand demoRecState).recordingStatus =
      (if demoRecState.isPaused then "REC" else "PAUSE") ∧
    (resumeRecording demoRecState).isPaused = false ∧
    (resumeRecording demoRecState).recordingStatus = "REC" :=
  pause_toggle_resume_spec demoRecState (by rfl)

/-! ## C9 — the single shared debounce slot -/

/-- **C9** (confirmed).  The tracker holds at most one pending debounced
action: scheduling any debounced action overwrites the single shared slot
without emitting the previously pending action, and the three debounced
handlers all schedule through that slot with their respective delays
(input 1000 ms, scroll 500 ms, hover 2000 ms). -/
theorem single_debounce_slot_spec (tr : Tracker) (prev : SrcAction) (dp : Nat)
    (hp : tr.pending = some (prev, dp)) :
    (∀ a d, (recordActionDebounced tr a d).pending = some (a, d) ∧
            (recordActionDebounced tr a d).emitted = tr.emitted) ∧
    (∀ (dc : Doc) (i now : Nat) (a : SrcAction), handleInputAction dc i now = some a →
       (handleInput dc i now tr).pending = some (a, 1000) ∧
       (handleInput dc i now tr).emitted = tr.emitted) ∧
    (∀ sx sy tgt now,
       (handleScroll tr sx sy tgt now).pending = some (scrollAction tr sx sy tgt now, 500) ∧
       (handleScroll tr sx sy tgt now).emitted = tr.emitted) ∧
    (∀ (dc : Doc) (i : Nat) (e : Elem) (now : Nat), dc.elems[i]? = some e →
       isInteractiveElement e = true →
       (handleMouseEnter dc i now tr).pending = some (hoverAction dc i e now, 2000) ∧
       (handleMouseEnter dc i now tr).emitted = tr.emitted) := by
  refine ⟨fun a d => ⟨rfl, rfl⟩, fun dc i now a ha => ?_,
          fun sx sy tgt now => ⟨rfl, rfl⟩, fun dc i e now he hint => ?_⟩
  · rw [handleInput, ha]
    exact ⟨rfl, rfl⟩
  · simp only [handleMouseEnter, he, hint, if_true]
    exact ⟨rfl, rfl⟩

/-- **C9** witness: a tracker holding a pending hover action; scheduling a
scroll, then handling an input, each overwrite the single slot. -/
theorem single_debounce_slot_witness :
    demoPendingTracker.pending = some (demoHoverPending, 2000) ∧
    (recordActionDebounced demoPendingTracker demoScrollSrc 500).pending =
      some (demoScrollSrc, 500) ∧
    (handleInput demoInputDoc 0 7 demoPendingTracker).pending =
      some (demoExpectedInput, 1000) ∧
    (handleInput demoInputDoc 0 7 demoPendingTracker).emitted =
      demoPendingTracker.emitted :=
  ⟨rfl,
   ((single_debounce_slot_spec demoPendingTracker demoHoverPending 2000 rfl).1
      demoScrollSrc 500).1,
   ((single_debounce_slot_spec demoPendingTracker demoHoverPending 2000 rfl).2.1
      demoInputDoc 0 7 demoExpectedInput (by decide)).1,
   ((single_debounce_slot_spec demoPendingTracker demoHoverPending 2000 rfl).2.1
      demoInputDoc 0 7 demoExpectedInput (by decide)).2⟩

/-! ## C4 — navigation-completed handling -/

/-- `updateRecordedActions` appends when not paused and the candidate is
not stringify-equal to the last logged action. -/
theorem updateRecordedActions_append (s : BGState) (a : SrcAction)
    (hp : s.isPaused = false) (hl : s.recordedActions.getLast? ≠ some a) :
    updateRecordedActions s a =
      { s with recordedActions := s.recordedActions ++ [a], waitTimer := some 500 } := by
  unfold updateRecordedActions
  rw [if_neg (by simp [hp]), if_neg hl]

/-- **C4** (confirmed).  On a top-frame navigation-completed signal in a
non-paused session, the service appends exactly the synthetic
closeOtherPage action followed by the synthetic waitTime action (nominal
5000 ms, randomInterval, bounds 3000/8000 — see `navigationWaitAction`)
and the status returns to Recording; sub-frame completions append
nothing.  The `hlast` hypothesis discharges the stringify-dedup guard
(vacuous in practice since the previous log entry is never an identical
closeOtherPage). -/
theorem handleNavigation_spec (now : Nat) (s : BGState)
    (hpause : s.isPaused = false)
    (hlast : s.recordedActions.getLast? ≠ some (closeOtherPageAction now)) :
    (handleNavigation now 0 s).recordedActions =
      s.recordedActions ++ [closeOtherPageAction now, navigationWaitAction now] ∧
    (handleNavigation now 0 s).recordingStatus = "REC" ∧
    ∀ f, f ≠ 0 → (handleNavigation now f s).recordedActions = s.recordedActions ∧
                 (handleNavigation now f s).recordingStatus = "REC" := by
  have hne : closeOtherPageAction now ≠ navigationWaitAction now := by
    intro h
    have := congrArg SrcAction.type h
    simp only [closeOtherPageAction, navigationWaitAction] at this
    exact absurd this (by decide)
  have h1 :
      updateRecordedActions { s with recordingStatus := "REC" } (closeOtherPageAction now) =
        { s with recordingStatus := "REC",
                 recordedActions := s.recordedActions ++ [closeOtherPageAction now],
                 waitTimer := some 500 } :=
    updateRecordedActions_append _ _ hpause hlast
  have h2 :
      updateRecordedActions
          { s with recordingStatus := "REC",
                   recordedActions := s.recordedActions ++ [closeOtherPageAction now],
                   waitTimer := some 500 } (navigationWaitAction now) =
        { s with recordingStatus := "REC",
                 recordedActions :=
                   (s.recordedActions ++ [closeOtherPageAction now]) ++
                     [navigationWaitAction now],
                 waitTimer := some 500 } := by
    refine updateRecordedActions_append _ _ hpause ?_
    show (s.recordedActions ++ [closeOtherPageAction now]).getLast? ≠
      some (navigationWaitAction now)
    rw [List.getLast?_concat]
    exact fun h => hne (Option.some.inj h)
  refine ⟨?_, ?_, fun f hf => ?_⟩
  · show (updateRecordedActions (updateRecordedActions _ _) _).recordedActions = _
    rw [h1, h2]
    simp [List.append_assoc]
  · show (updateRecordedActions (updateRecordedActions _ _) _).recordingStatus = _
    rw [h1, h2]
  · unfold handleNavigation
    rw [if_neg hf]
    exact ⟨rfl, rfl⟩

/-- **C4** witness: a fresh recording state at time 5. -/
theorem handleNavigation_witness :
    (handleNavigation 5 0 ({} : BGState)).recordedActions =
      [closeOtherPageAction 5, navigationWaitAction 5] ∧
    (handleNavigation 5 0 ({} : BGState)).recordingStatus = "REC" ∧
    (handleNavigation 5 7 ({} : BGState)).recordedActions = [] := by
  obtain ⟨h1, h2, h3⟩ := handleNavigation_spec 5 ({} : BGState) rfl (by decide)
  exact ⟨by simpa using h1, h2, (h3 7 (by decide)).1⟩

/-! ## C1 — sensitive-input exclusion -/

/-- **C1** (amended).  Under the *executing* (second) `isSensitiveInput`,
the input handler never schedules an inputContent action for an element
whose type is password or hidden, or whose name or id contains one of the
six keywords password/pass/pwd/secret/token/key — for any value.
(Placeholder-only matches and the keywords credit/card/cvv/ssn are not
excluded; see the counterexample.) -/
theorem sensitive_input_never_recorded (d : Doc) (i : Nat) (e : Elem) (now : Nat)
    (he : d.elems[i]? = some e)
    (hs : strLower e.eType ∈ ["password", "hidden"] ∨
          ∃ kw ∈ (["password", "pass", "pwd", "secret", "token", "key"] : List String),
            strContains (strLower e.name) kw = true ∨
              strContains (strLower e.id) kw = true) :
    handleInputAction d i now = none ∧ ∀ tr, handleInput d i now tr = tr := by
  have hsens : isSensitiveInput e = true := by
    rcases hs with h | ⟨kw, hkw, h⟩
    · simp only [List.mem_cons, List.not_mem_nil, or_false] at h
      rcases h with h | h <;> simp [isSensitiveInput, h]
    · have hany :
          ((["password", "pass", "pwd", "secret", "token", "key"] : List String).any
            fun s => strContains (strLower e.name) s || strContains (strLower e.id) s) =
            true :=
        List.any_eq_true.mpr ⟨kw, hkw, by rcases h with h | h <;> simp [h]⟩
      simp [isSensitiveInput, hany]
  have h1 : handleInputAction d i now = none := by
    cases hin : isInputElement e with
    | false => simp [handleInputAction, he, hin]
    | true => simp [handleInputAction, he, hin, hsens]
  exact ⟨h1, fun tr => by simp [handleInput, h1]⟩

/-- **C1** witness: an input named `user-password` is never scheduled. -/
theorem sensitive_input_never_recorded_witness :
    handleInputAction demoSensitiveDoc 0 4 = none ∧
    handleInput demoSensitiveDoc 0 4 ({} : Tracker) = ({} : Tracker) := by
  have h := sensitive_input_never_recorded demoSensitiveDoc 0 demoSensitiveElem 4 rfl
    (Or.inr ⟨"password", by decide, Or.inl (by decide)⟩)
  exact ⟨h.1, h.2 ({} : Tracker)⟩

/-- **C1** counterexample: an element whose placeholder contains the
keyword `password` (from the claim's ten-keyword list) but whose type,
name and id are innocuous *is* scheduled for recording, because the
executing `isSensitiveInput` ignores the placeholder. -/
theorem sensitive_input_counterexample :
    strContains (strLower demoPlaceholderElem.placeholder) "password" = true ∧
    demoPlaceholderElem.eType = "text" ∧
    (handleInputAction demoPlaceholderDoc 0 3).isSome = true := by
  refine ⟨by decide, rfl, by decide⟩

/-! ## C2 — selector uniqueness -/

/-- Any selector returned by `firstUniqueAttr` matches exactly one
element. -/
theorem firstUniqueAttr_count (d : Doc) :
    ∀ (ps : List (String × String)) (s : Sel),
      firstUniqueAttr d ps = some s → countMatches d s = 1 := by
  intro ps
  induction ps with
  | nil => intro s h; exact absurd h (by simp [firstUniqueAttr])
  | cons p rest ih =>
    obtain ⟨a, v⟩ := p
    intro s h
    by_cases hc : v ≠ "" ∧ countMatches d (Sel.sattr a v) = 1
    · rw [firstUniqueAttr, if_pos hc] at h
      cases h
      exact hc.2
    · rw [firstUniqueAttr, if_neg hc] at h
      exact ih s h

/-- Any selector returned by `firstUniqueClass` matches exactly one
element. -/
theorem firstUniqueClass_count (d : Doc) :
    ∀ (cs : List String) (s : Sel),
      firstUniqueClass d cs = some s → countMatches d s = 1 := by
  intro cs
  induction cs with
  | nil => intro s h; exact absurd h (by simp [firstUniqueClass])
  | cons c rest ih =>
    intro s h
    by_cases hc : countMatches d (Sel.sclasses [c]) = 1
    · rw [firstUniqueClass, if_pos hc] at h
      cases h
      exact hc
    · rw [firstUniqueClass, if_neg hc] at h
      exact ih s h

/-- **C2** (amended).  Every selector produced by a uniqueness-checked
branch of `generateSelector` (shape `sid`, `sattr`, `sclasses` or `srole`)
matches exactly one element of the document at generation time; the
role+aria-label combination and the ancestor-path fallback carry no such
guarantee (see the counterexample). -/
theorem generateSelector_checked_unique (d : Doc) (i : Nat) (s : Sel)
    (hgen : generateSelector d i = s) (hshape : checkedShape s = true) :
    countMatches d s = 1 := by
  subst hgen
  rcases hde : d.elems[i]? with _ | e
  · simp only [generateSelector, hde] at hshape
    simp [checkedShape] at hshape
  · simp only [generateSelector, hde] at hshape ⊢
    by_cases h1 : e.id ≠ "" ∧ countMatches d (Sel.sid e.id) = 1
    · rw [if_pos h1] at hshape ⊢
      exact h1.2
    · rw [if_neg h1] at hshape ⊢
      rcases hfa : firstUniqueAttr d
          [("data-testid", e.dataTestid), ("data-test", e.dataTest),
           ("data-cy", e.dataCy), ("data-automation", e.dataAutomation)] with _ | s1
      · simp only [hfa] at hshape ⊢
        by_cases h2 : e.name ≠ "" ∧ countMatches d (Sel.sattr "name" e.name) = 1
        · rw [if_pos h2] at hshape ⊢
          exact h2.2
        · rw [if_neg h2] at hshape ⊢
          rcases hcl :
              (if e.className ≠ "" ∧ classList e ≠ [] then
                (if countMatches d (Sel.sclasses (classList e)) = 1 then
                  some (Sel.sclasses (classList e))
                else firstUniqueClass d ((classList e).filter meaningfulClass))
              else none) with _ | s2
          · simp only [hcl] at hshape ⊢
            by_cases h3 : e.ariaLabel ≠ "" ∧
                countMatches d (Sel.sattr "aria-label" e.ariaLabel) = 1
            · rw [if_pos h3] at hshape ⊢
              exact h3.2
            · rw [if_neg h3] at hshape ⊢
              rcases hro :
                  (if e.role ≠ "" then
                    (if countMatches d (Sel.srole e.role) = 1 then some (Sel.srole e.role)
                     else if e.ariaLabel ≠ "" then some (Sel.sroleAria e.role e.ariaLabel)
                     else none)
                  else none) with _ | s3
              · simp only [hro] at hshape ⊢
                simp [checkedShape] at hshape
              · simp only [hro] at hshape ⊢
                by_cases h4 : e.role ≠ ""
                · rw [if_pos h4] at hro
                  by_cases h5 : countMatches d (Sel.srole e.role) = 1
                  · rw [if_pos h5] at hro
                    cases hro
                    exact h5
                  · rw [if_neg h5] at hro
                    by_cases h6 : e.ariaLabel ≠ ""
                    · rw [if_pos h6] at hro
                      cases hro
                      simp [checkedShape] at hshape
                    · rw [if_neg h6] at hro
                      cases hro
                · rw [if_neg h4] at hro
                  cases hro
          · simp only [hcl] at hshape ⊢
            by_cases hc1 : e.className ≠ "" ∧ classList e ≠ []
            · rw [if_pos hc1] at hcl
              by_cases hc2 : countMatches d (Sel.sclasses (classList e)) = 1
              · rw [if_pos hc2] at hcl
                cases hcl
                exact hc2
              · rw [if_neg hc2] at hcl
                exact firstUniqueClass_count d _ s2 hcl
            · rw [if_neg hc1] at hcl
              cases hcl
      · simp only [hfa] at hshape ⊢
        exact firstUniqueAttr_count d _ s1 hfa

/-- **C2** witness: on a document with a unique id, `generateSelector`
returns the id selector and it matches exactly one element. -/
theorem generateSelector_checked_unique_witness :
    generateSelector demoInputDoc 0 = Sel.sid "q1" ∧
    countMatches demoInputDoc (Sel.sid "q1") = 1 :=
  ⟨by decide,
   generateSelector_checked_unique demoInputDoc 0 (Sel.sid "q1") (by decide) (by decide)⟩

/-- **C2** counterexample: with two identical `role="button"`,
`aria-label="Close"` elements, `generateSelector` returns the unchecked
role+aria-label combination, which matches two elements — refuting the
claim that every returned CSS selector matches exactly one element. -/
theorem generateSelector_counterexample :
    generateSelector demoRoleDoc 0 = Sel.sroleAria "button" "Close" ∧
    countMatches demoRoleDoc (generateSelector demoRoleDoc 0) = 2 := by
  exact ⟨by decide, by decide⟩

/-! ## C3 — gap-based intelligent wait insertion -/

/-- The nominal of an intelligent wait equals the elapsed time clamped to
`[1000, 30000]`, raised to the context minimums (written as a `max` with
the applicable floors). -/
theorem intelligentNominal_eq (td : Nat) (l n : Option SrcAction) :
    intelligentNominal td l n =
      max (min (max td 1000) 30000)
        (max (if optType l = "gotoUrl" ∨ optType l = "newPage" then 5000 else 0)
          (max (if optType l = "click" ∧ optType n = "inputContent" then 2000 else 0)
            (if optType l = "scrollPage" then 1500 else 0))) := by
  simp only [intelligentNominal]
  split_ifs <;> omega

/-- The intelligent nominal never exceeds the 30000 ms clamp. -/
theorem intelligentNominal_le (td : Nat) (l n : Option SrcAction) :
    intelligentNominal td l n ≤ 30000 := by
  rw [intelligentNominal_eq]
  split_ifs <;> omega

theorem log2Aux_eq (fuel : Nat) : ∀ n : Nat, n ≤ fuel → log2Aux fuel n = Nat.log2 n := by
  induction fuel with
  | zero =>
    intro n h
    have : n = 0 := by omega
    subst this
    rw [Nat.log2]
    rfl
  | succ f ih =>
    intro n h
    rw [log2Aux, Nat.log2]
    split_ifs with h2
    · rw [ih (n / 2) (by omega)]
    · rfl

theorem natLog2_eq (n : Nat) : natLog2 n = Nat.log2 n := log2Aux_eq n n (Nat.le_refl n)

theorem ulpRound_bounds (n p : Nat) (hp : 0 < p) :
    n / p ≤ ulpRound n p ∧ ulpRound n p ≤ n / p + 1 := by
  unfold ulpRound
  split_ifs with h1 h2 h3 h4
  · have hp1 : p = 1 := by omega
    subst hp1
    simp [Nat.div_one]
  · exact ⟨Nat.le_refl _, Nat.le_succ _⟩
  · exact ⟨Nat.le_succ _, Nat.le_refl _⟩
  · exact ⟨Nat.le_refl _, Nat.le_succ _⟩
  · exact ⟨Nat.le_succ _, Nat.le_refl _⟩

/-- Rounding a product below `2^68` to 53 significant bits moves it by at
most `2^15`. -/
theorem roundProd_bounds (N : Nat) (h : N < 2 ^ 68) :
    N ≤ roundProd N + 32768 ∧ roundProd N ≤ N + 32768 := by
  unfold roundProd
  by_cases hN : N < 2 ^ 53
  · rw [if_pos hN]
    omega
  · rw [if_neg hN]
    rw [natLog2_eq]
    set k := Nat.log2 N - 52 with hkdef
    have hne : N ≠ 0 := by
      intro h0
      rw [h0] at hN
      exact hN (by norm_num)
    have hlog_lo : 53 ≤ Nat.log2 N := (Nat.le_log2 hne).mpr (by omega)
    have hlog_hi : Nat.log2 N < 68 := by
      rw [Nat.log2_lt hne]
      exact h
    have hk_hi : k ≤ 15 := by omega
    have h2k : 2 ^ k ≤ 32768 := by
      calc (2 : Nat) ^ k ≤ 2 ^ 15 := Nat.pow_le_pow_right (by norm_num) hk_hi
        _ = 32768 := by norm_num
    have h2kpos : 0 < 2 ^ k := Nat.two_pow_pos k
    obtain ⟨hu_lo, hu_hi⟩ := ulpRound_bounds N (2 ^ k) h2kpos
    have hmod : 2 ^ k * (N / 2 ^ k) + N % 2 ^ k = N := Nat.div_add_mod N (2 ^ k)
    have hmodlt : N % 2 ^ k < 2 ^ k := Nat.mod_lt N h2kpos
    have hUP_hi : ulpRound N (2 ^ k) * 2 ^ k ≤ N + 2 ^ k := by
      calc ulpRound N (2 ^ k) * 2 ^ k ≤ (N / 2 ^ k + 1) * 2 ^ k :=
            Nat.mul_le_mul_right _ hu_hi
        _ = 2 ^ k * (N / 2 ^ k) + 2 ^ k := by ring
        _ ≤ N + 2 ^ k := by omega
    have hUP_lo : N ≤ ulpRound N (2 ^ k) * 2 ^ k + 2 ^ k := by
      have h1 : (N / 2 ^ k) * 2 ^ k ≤ ulpRound N (2 ^ k) * 2 ^ k :=
        Nat.mul_le_mul_right _ hu_lo
      have h2 : (N / 2 ^ k) * 2 ^ k = 2 ^ k * (N / 2 ^ k) := by ring
      omega
    omega

/-- The IEEE floor of `0.7·x` is the exact `⌊7x/10⌋` or one below it
(the double 0.7 lies just below 7/10). -/
theorem floorMul07_sandwich (x : Nat) (hx : x ≤ 30000) :
    x * 7 / 10 - 1 ≤ floorMul07 x ∧ floorMul07 x ≤ x * 7 / 10 := by
  have hN : x * 6305039478318694 < 2 ^ 68 := by
    calc x * 6305039478318694 ≤ 30000 * 6305039478318694 :=
          Nat.mul_le_mul_right _ hx
      _ < 2 ^ 68 := by norm_num
  obtain ⟨hb1, hb2⟩ := roundProd_bounds (x * 6305039478318694) hN
  unfold floorMul07 floorMulPos
  have h53 : (2 : Nat) ^ 53 = 9007199254740992 := by norm_num
  rw [h53]
  omega

/-- The IEEE floor of `1.4·x` is the exact `⌊14x/10⌋` or one below it. -/
theorem floorMul14_sandwich (x : Nat) (hx : x ≤ 30000) :
    x * 14 / 10 - 1 ≤ floorMul14 x ∧ floorMul14 x ≤ x * 14 / 10 := by
  have hN : x * 6305039478318694 < 2 ^ 68 := by
    calc x * 6305039478318694 ≤ 30000 * 6305039478318694 :=
          Nat.mul_le_mul_right _ hx
      _ < 2 ^ 68 := by norm_num
  obtain ⟨hb1, hb2⟩ := roundProd_bounds (x * 6305039478318694) hN
  unfold floorMul14 floorMulPos
  have h52 : (2 : Nat) ^ 52 = 4503599627370496 := by norm_num
  rw [h52]
  omega

/-- **C3** (amended).  When consecutive source actions `a`, `b` carry
positive timestamps `ta < tb` with `tb - ta > 2000`, the conversion loop
(processing `b` with loop state `lastAction = a`, `lastTimestamp = ta` —
exactly the state after processing `a`, per the first conjunct) emits
exactly one wait before `b`'s own conversion; its nominal is the elapsed
time clamped to `[1000, 30000]` raised to ≥5000 after gotoUrl/newPage,
≥2000 for click→inputContent and ≥1500 after scrollPage.  Above 3000 ms
the wait is a randomInterval whose bounds are the IEEE-double floors
`Math.floor(0.7·n)` / `Math.floor(1.4·n)` — each equal to the exact
rational floor `⌊7n/10⌋` / `⌊14n/10⌋` or one below it, not always equal
(see the counterexample); at or below 3000 ms it is a fixedValue
`max(n−500,500)/n+1000` band (exact integer arithmetic). -/
theorem gap_wait_spec (now c ta tb : Nat) (a b : SrcAction) (rest : List SrcAction)
    (hts : a.config.timestamp = some ta) (hta : 0 < ta)
    (htb : b.config.timestamp = some tb) (hgap : ta + 2000 < tb) :
    tsOrNow a.config now = ta ∧
    convertGo now (some a) (some ta) c (b :: rest) =
      generateIntelligentWaitAction (tb - ta) (some a) (some b) ::
        (convertActionToAdsPowerRPA now b (c + 1) ++
          convertGo now (some b) (some tb)
            (c + 1 + (convertActionToAdsPowerRPA now b (c + 1)).length) rest) ∧
    ∃ nom,
      (generateIntelligentWaitAction (tb - ta) (some a) (some b)).type = "waitTime" ∧
      (generateIntelligentWaitAction (tb - ta) (some a) (some b)).config.timeout = some nom ∧
      nom = max (min (max (tb - ta) 1000) 30000)
          (max (if a.type = "gotoUrl" ∨ a.type = "newPage" then 5000 else 0)
            (max (if a.type = "click" ∧ b.type = "inputContent" then 2000 else 0)
              (if a.type = "scrollPage" then 1500 else 0))) ∧
      (3000 < nom →
        (generateIntelligentWaitAction (tb - ta) (some a) (some b)).config.timeoutType =
            some "randomInterval" ∧
        (generateIntelligentWaitAction (tb - ta) (some a) (some b)).config.timeoutMin =
            some (floorMul07 nom) ∧
        (generateIntelligentWaitAction (tb - ta) (some a) (some b)).config.timeoutMax =
            some (floorMul14 nom) ∧
        nom * 7 / 10 - 1 ≤ floorMul07 nom ∧ floorMul07 nom ≤ nom * 7 / 10 ∧
        nom * 14 / 10 - 1 ≤ floorMul14 nom ∧ floorMul14 nom ≤ nom * 14 / 10) ∧
      (nom ≤ 3000 →
        (generateIntelligentWaitAction (tb - ta) (some a) (some b)).config.timeoutType =
            some "fixedValue" ∧
        (generateIntelligentWaitAction (tb - ta) (some a) (some b)).config.timeoutMin =
            some (max (nom - 500) 500) ∧
        (generateIntelligentWaitAction (tb - ta) (some a) (some b)).config.timeoutMax =
            some (nom + 1000)) := by
  have h0 : tsOrNow a.config now = ta := by
    have : ta ≠ 0 := by omega
    simp [tsOrNow, natOr, hts, this]
  have h1 : tsOrNow b.config now = tb := by
    have : tb ≠ 0 := by omega
    simp [tsOrNow, natOr, htb, this]
  have hbw : boundaryWaits (some ta) tb (some a) b =
      [generateIntelligentWaitAction (tb - ta) (some a) (some b)] := by
    simp only [boundaryWaits]
    rw [if_pos ⟨by omega, by omega, by omega⟩]
  refine ⟨h0, ?_, ?_⟩
  · simp only [convertGo, h1, hbw, List.length_cons, List.length_nil, List.singleton_append,
      List.cons_append, List.nil_append]
  · have h30000 : intelligentNominal (tb - ta) (some a) (some b) ≤ 30000 :=
      intelligentNominal_le (tb - ta) (some a) (some b)
    refine ⟨intelligentNominal (tb - ta) (some a) (some b), ?_, ?_, ?_, ?_, ?_⟩
    · simp only [generateIntelligentWaitAction]
      split_ifs <;> rfl
    · simp only [generateIntelligentWaitAction]
      split_ifs <;> rfl
    · exact intelligentNominal_eq (tb - ta) (some a) (some b)
    · intro h3
      obtain ⟨hs1, hs2⟩ := floorMul07_sandwich _ h30000
      obtain ⟨hq1, hq2⟩ := floorMul14_sandwich _ h30000
      refine ⟨?_, ?_, ?_, hs1, hs2, hq1, hq2⟩ <;>
        · simp only [generateIntelligentWaitAction]
          rw [if_pos h3]
    · intro h4
      simp only [generateIntelligentWaitAction]
      rw [if_neg (by omega)]
      exact ⟨rfl, rfl, rfl⟩

/-- **C3** witness: a click at t=1000 followed by an input at t=9000
produces exactly one randomized wait of nominal 8000 ms. -/
theorem gap_wait_spec_witness :
    convertGo 0 (some demoClickSrc) (some 1000) 0 [demoTypeSrc] =
      generateIntelligentWaitAction (9000 - 1000) (some demoClickSrc) (some demoTypeSrc) ::
        (convertActionToAdsPowerRPA 0 demoTypeSrc (0 + 1) ++
          convertGo 0 (some demoTypeSrc) (some 9000)
            (0 + 1 + (convertActionToAdsPowerRPA 0 demoTypeSrc (0 + 1)).length) []) ∧
    (generateIntelligentWaitAction (9000 - 1000) (some demoClickSrc)
        (some demoTypeSrc)).config.timeout = some 8000 ∧
    (generateIntelligentWaitAction (9000 - 1000) (some demoClickSrc)
        (some demoTypeSrc)).config.timeoutMin = some 5600 ∧
    (generateIntelligentWaitAction (9000 - 1000) (some demoClickSrc)
        (some demoTypeSrc)).config.timeoutMax = some 11200 := by
  obtain ⟨h0, h1, nom, hty, hto, hnf, hrand, hfix⟩ :=
    gap_wait_spec 0 0 1000 9000 demoClickSrc demoTypeSrc [] rfl (by omega) rfl (by omega)
  have hnv : nom = 8000 := by rw [hnf]; decide
  obtain ⟨hrt, hrmin, hrmax, -, -, -, -⟩ := hrand (by omega)
  refine ⟨h1, ?_, ?_, ?_⟩
  · rw [hto, hnv]
  · rw [hrmin, hnv]
    decide
  · rw [hrmax, hnv]
    decide

/-- **C3** counterexample: at a 5130 ms gap (click at t=1000, input at
t=6130; nominal 5130, no context minimum applies) the produced wait has
`timeoutMin = 3590` and `timeoutMax = 7181` — the IEEE-double floors of
`5130·0.7 = 3590.9999999999995` and `5130·1.4` — whereas the claim's
`⌊0.7·5130⌋ = 3591` and `⌊1.4·5130⌋ = 7182`.  So the bounds are not the
exact `floor(0.7·nominal)`/`floor(1.4·nominal)` the claim states. -/
theorem gap_wait_counterexample :
    (convertGo 0 (some demoGapClickSrc) (some 1000) 0 [demoGapTypeSrc]).head? =
      some (generateIntelligentWaitAction 5130 (some demoGapClickSrc) (some demoGapTypeSrc)) ∧
    (generateIntelligentWaitAction 5130 (some demoGapClickSrc)
        (some demoGapTypeSrc)).config.timeout = some 5130 ∧
    (generateIntelligentWaitAction 5130 (some demoGapClickSrc)
        (some demoGapTypeSrc)).config.timeoutMin = some 3590 ∧
    (generateIntelligentWaitAction 5130 (some demoGapClickSrc)
        (some demoGapTypeSrc)).config.timeoutMax = some 7181 ∧
    3590 ≠ 5130 * 7 / 10 ∧ 7181 ≠ 5130 * 14 / 10 := by
  refine ⟨by decide, by decide, by decide, by decide, by decide, by decide⟩

/-! ## C6 — the smart-wait second pass -/

/-- Every element of `addSmartGo xs` is an input element or a smart wait. -/
theorem mem_addSmartGo {r : RPAAction} :
    ∀ {xs : List RPAAction}, r ∈ addSmartGo xs →
      r ∈ xs ∨ ∃ a b, r = generateSmartWaitAction a b := by
  intro xs
  induction xs with
  | nil => intro h; simp [addSmartGo] at h
  | cons a rest ih =>
    intro h
    cases rest with
    | nil =>
      have h' : r ∈ [a] := h
      simp at h'
      exact Or.inl (by simp [h'])
    | cons b rest' =>
      have h' : r ∈ a ::
          ((if shouldAddWaitAfter a b then [generateSmartWaitAction a b] else []) ++
            addSmartGo (b :: rest')) := h
      rw [List.mem_cons, List.mem_append] at h'
      rcases h' with rfl | h' | h'
      · exact Or.inl (List.mem_cons_self r _)
      · by_cases hs : shouldAddWaitAfter a b
        · rw [if_pos hs] at h'
          simp at h'
          subst h'
          exact Or.inr ⟨a, b, rfl⟩
        · rw [if_neg hs] at h'
          simp at h'
      · rcases ih h' with h'' | h''
        · exact Or.inl (List.mem_cons_of_mem a h'')
        · exact Or.inr h''

/-- The input survives the smart-wait pass in order. -/
theorem sublist_addSmartGo : ∀ xs : List RPAAction, xs.Sublist (addSmartGo xs) := by
  intro xs
  induction xs with
  | nil => simp [addSmartGo]
  | cons a rest ih =>
    cases rest with
    | nil => simp [addSmartGo]
    | cons b rest' =>
      show (a :: b :: rest').Sublist
        (a :: ((if shouldAddWaitAfter a b then [generateSmartWaitAction a b] else []) ++
          addSmartGo (b :: rest')))
      exact List.Sublist.cons₂ a (ih.trans (List.sublist_append_right _ _))

/-- `⌊0.8t⌋ ≤ t ≤ ⌊1.5t⌋` for every natural `t`. -/
theorem band8_15 (t : Nat) : t * 8 / 10 ≤ t ∧ t ≤ t * 15 / 10 := by omega

/-- **C6** (amended).  The smart-wait pass preserves the input as a
sublist and only ever inserts randomInterval waitTime actions with a
`⌊0.8t⌋/⌊1.5t⌋` band; it is **not** idempotent and does not avoid
boundaries already carrying a wait (see the counterexample). -/
theorem addSmartWaitTimes_spec (xs : List RPAAction) :
    xs.Sublist (addSmartWaitTimes xs) ∧
    ∀ r ∈ addSmartWaitTimes xs, r ∈ xs ∨
      (r.type = "waitTime" ∧ r.config.timeoutType = some "randomInterval" ∧
       ∃ t, r.config.timeout = some t ∧ r.config.timeoutMin = some (t * 8 / 10) ∧
            r.config.timeoutMax = some (t * 15 / 10) ∧ t * 8 / 10 ≤ t ∧ t ≤ t * 15 / 10) := by
  refine ⟨sublist_addSmartGo xs, fun r hr => ?_⟩
  rcases mem_addSmartGo hr with h | ⟨a, b, rfl⟩
  · exact Or.inl h
  · refine Or.inr ⟨rfl, rfl, ?_⟩
    exact ⟨_, rfl, rfl, rfl, (band8_15 _).1, (band8_15 _).2⟩

/-- **C6** witness: on `[gotoUrl, click]` the pass inserts the smart wait
for that pair, and the inserted wait satisfies the banded shape. -/
theorem addSmartWaitTimes_spec_witness :
    ([demoGotoRPA, demoClickRPA] : List RPAAction).Sublist
      (addSmartWaitTimes [demoGotoRPA, demoClickRPA]) ∧
    (generateSmartWaitAction demoGotoRPA demoClickRPA ∈
        ([demoGotoRPA, demoClickRPA] : List RPAAction) ∨
      ((generateSmartWaitAction demoGotoRPA demoClickRPA).type = "waitTime" ∧
       (generateSmartWaitAction demoGotoRPA demoClickRPA).config.timeoutType =
          some "randomInterval" ∧
       ∃ t, (generateSmartWaitAction demoGotoRPA demoClickRPA).config.timeout = some t ∧
            (generateSmartWaitAction demoGotoRPA demoClickRPA).config.timeoutMin =
              some (t * 8 / 10) ∧
            (generateSmartWaitAction demoGotoRPA demoClickRPA).config.timeoutMax =
              some (t * 15 / 10) ∧ t * 8 / 10 ≤ t ∧ t ≤ t * 15 / 10)) :=
  ⟨(addSmartWaitTimes_spec [demoGotoRPA, demoClickRPA]).1,
   (addSmartWaitTimes_spec [demoGotoRPA, demoClickRPA]).2
     (generateSmartWaitAction demoGotoRPA demoClickRPA) (by decide)⟩

/-- **C6** counterexample: the pass is not idempotent — applying it to its
own output on `[gotoUrl, click]` grows the array from 3 to 5, inserting
waits adjacent to the wait inserted by the first pass. -/
theorem addSmartWaitTimes_counterexample :
    (addSmartWaitTimes [demoGotoRPA, demoClickRPA]).length = 3 ∧
    (addSmartWaitTimes (addSmartWaitTimes [demoGotoRPA, demoClickRPA])).length = 5 ∧
    addSmartWaitTimes (addSmartWaitTimes [demoGotoRPA, demoClickRPA]) ≠
      addSmartWaitTimes [demoGotoRPA, demoClickRPA] := by
  refine ⟨by decide, by decide, by decide⟩

/-! ## C5 — export determinism -/

/-- Per-action conversion depends on the clock only through the
`timestamp` config field. -/
theorem conv_eraseTs (now₁ now₂ : Nat) (a : SrcAction) (c : Nat) :
    (convertActionToAdsPowerRPA now₁ a c).map eraseTs =
      (convertActionToAdsPowerRPA now₂ a c).map eraseTs := by
  unfold convertActionToAdsPowerRPA
  split_ifs <;> rfl

/-- Per-action conversion emits the same number of target actions at any
clock. -/
theorem conv_length (now₁ now₂ : Nat) (a : SrcAction) (c : Nat) :
    (convertActionToAdsPowerRPA now₁ a c).length =
      (convertActionToAdsPowerRPA now₂ a c).length := by
  unfold convertActionToAdsPowerRPA
  split_ifs <;> rfl

/-- When every source action carries a positive timestamp, the main
conversion loop is clock-independent modulo the `timestamp` fields. -/
theorem convertGo_eraseTs :
    ∀ (as : List SrcAction) (now₁ now₂ : Nat) (l : Option SrcAction) (lt : Option Nat)
      (c : Nat),
      (∀ a ∈ as, ∃ t, a.config.timestamp = some t ∧ 0 < t) →
      (convertGo now₁ l lt c as).map eraseTs = (convertGo now₂ l lt c as).map eraseTs := by
  intro as
  induction as with
  | nil => intro _ _ _ _ _ _; rfl
  | cons a rest ih =>
    intro now₁ now₂ l lt c h
    obtain ⟨t, hts, ht⟩ := h a (List.mem_cons_self a rest)
    have hcur : ∀ n, tsOrNow a.config n = t := fun n => by
      have hne : t ≠ 0 := by omega
      simp [tsOrNow, natOr, hts, hne]
    have hrest : ∀ a' ∈ rest, ∃ t', a'.config.timestamp = some t' ∧ 0 < t' :=
      fun a' ha' => h a' (List.mem_cons_of_mem a ha')
    simp only [convertGo, hcur, List.map_append]
    rw [conv_eraseTs now₁ now₂ a, conv_length now₁ now₂ a,
      ih now₁ now₂ (some a) (some t) _ hrest]

/-- Full conversion is clock-independent modulo the `timestamp` fields. -/
theorem convertToRPAFormat_eraseTs (actions : List SrcAction) (now₁ now₂ : Nat)
    (h : ∀ a ∈ actions, ∃ t, a.config.timestamp = some t ∧ 0 < t) :
    (convertToRPAFormat now₁ actions).map eraseTs =
      (convertToRPAFormat now₂ actions).map eraseTs := by
  cases actions with
  | nil => rfl
  | cons a rest =>
    have hgo := convertGo_eraseTs (a :: rest) now₁ now₂ none none 0 h
    simp only [convertToRPAFormat]
    rcases h1 : convertGo now₁ none none 0 (a :: rest) with _ | ⟨x, xs⟩ <;>
      rcases h2 : convertGo now₂ none none 0 (a :: rest) with _ | ⟨y, ys⟩
    · rfl
    · rw [h1, h2] at hgo
      simp at hgo
    · rw [h1, h2] at hgo
      simp at hgo
    · rw [h1, h2] at hgo
      simp only [List.map_append]
      rw [hgo]

theorem shouldAddWaitAfter_eraseTs (a b : RPAAction) :
    shouldAddWaitAfter (eraseTs a) (eraseTs b) = shouldAddWaitAfter a b := rfl

theorem generateSmartWaitAction_eraseTs (a b : RPAAction) :
    eraseTs (generateSmartWaitAction a b) = generateSmartWaitAction (eraseTs a) (eraseTs b) :=
  rfl

/-- The smart-wait pass commutes with erasing timestamps (its decisions
read only type/ctype/selector, and the waits it inserts carry no
timestamp). -/
theorem addSmartGo_eraseTs : ∀ xs : List RPAAction,
    (addSmartGo xs).map eraseTs = addSmartGo (xs.map eraseTs) := by
  intro xs
  induction xs with
  | nil => rfl
  | cons a rest ih =>
    cases rest with
    | nil => rfl
    | cons b rest' =>
      show (a :: ((if shouldAddWaitAfter a b then [generateSmartWaitAction a b] else []) ++
          addSmartGo (b :: rest'))).map eraseTs =
        eraseTs a ::
          ((if shouldAddWaitAfter (eraseTs a) (eraseTs b) then
              [generateSmartWaitAction (eraseTs a) (eraseTs b)]
            else []) ++ addSmartGo (eraseTs b :: rest'.map eraseTs))
      rw [shouldAddWaitAfter_eraseTs]
      by_cases hs : shouldAddWaitAfter a b
      · rw [if_pos hs, if_pos hs]
        simp only [List.map_cons, List.map_append, List.map_cons, List.map_nil]
        rw [generateSmartWaitAction_eraseTs]
        have ih' : (addSmartGo (b :: rest')).map eraseTs =
            addSmartGo (eraseTs b :: rest'.map eraseTs) := ih
        rw [ih']
      · rw [if_neg hs, if_neg hs]
        simp only [List.map_cons, List.map_append, List.map_nil, List.nil_append]
        have ih' : (addSmartGo (b :: rest')).map eraseTs =
            addSmartGo (eraseTs b :: rest'.map eraseTs) := ih
        rw [ih']

/-- Anything in a gap wait list is an intelligent wait for the following
action. -/
theorem mem_boundaryWaits {r : RPAAction} (lt : Option Nat) (cur : Nat)
    (l : Option SrcAction) (a : SrcAction) (h : r ∈ boundaryWaits lt cur l a) :
    ∃ td, r = generateIntelligentWaitAction td l (some a) := by
  cases lt with
  | none => simp [boundaryWaits] at h
  | some t =>
    by_cases hc : t ≠ 0 ∧ t < cur ∧ 2000 < cur - t
    · simp only [boundaryWaits] at h
      rw [if_pos hc] at h
      simp at h
      exact ⟨cur - t, h⟩
    · simp only [boundaryWaits] at h
      rw [if_neg hc] at h
      simp at h

/-- Every element of the conversion loop output is a gap wait or part of a
per-action conversion. -/
theorem mem_convertGo_shapes {r : RPAAction} :
    ∀ (as : List SrcAction) (now : Nat) (l : Option SrcAction) (lt : Option Nat) (c : Nat),
      r ∈ convertGo now l lt c as →
      (∃ td l' n', r = generateIntelligentWaitAction td l' n') ∨
      (∃ a k, r ∈ convertActionToAdsPowerRPA now a k) := by
  intro as
  induction as with
  | nil => intro now l lt c h; simp [convertGo] at h
  | cons a rest ih =>
    intro now l lt c h
    have h' : r ∈ (boundaryWaits lt (tsOrNow a.config now) l a ++
        convertActionToAdsPowerRPA now a
          (c + (boundaryWaits lt (tsOrNow a.config now) l a).length)) ++
        convertGo now (some a) (some (tsOrNow a.config now))
          (c + (boundaryWaits lt (tsOrNow a.config now) l a).length +
            (convertActionToAdsPowerRPA now a
              (c + (boundaryWaits lt (tsOrNow a.config now) l a).length)).length) rest := h
    rw [List.mem_append, List.mem_append] at h'
    rcases h' with (h' | h') | h'
    · obtain ⟨td, rfl⟩ := mem_boundaryWaits _ _ _ _ h'
      exact Or.inl ⟨td, l, some a, rfl⟩
    · exact Or.inr ⟨a, _, h'⟩
    · exact ih now (some a) (some (tsOrNow a.config now)) _ h'

/-- Every element of the full conversion is the final wait, a gap wait, or
part of a per-action conversion. -/
theorem mem_convertToRPAFormat {r : RPAAction} (now : Nat) (actions : List SrcAction)
    (h : r ∈ convertToRPAFormat now actions) :
    r = finalWaitAction ∨
    (∃ td l' n', r = generateIntelligentWaitAction td l' n') ∨
    (∃ a k, r ∈ convertActionToAdsPowerRPA now a k) := by
  cases actions with
  | nil => simp [convertToRPAFormat] at h
  | cons a rest =>
    simp only [convertToRPAFormat] at h
    rcases hgo : convertGo now none none 0 (a :: rest) with _ | ⟨x, xs⟩
    · rw [hgo] at h
      simp at h
    · rw [hgo] at h
      rw [List.mem_append] at h
      rcases h with h | h
      · rw [← hgo] at h
        rcases mem_convertGo_shapes _ now none none 0 h with h' | h'
        · exact Or.inr (Or.inl h')
        · exact Or.inr (Or.inr h')
      · simp at h
        exact Or.inl h

/-- An intelligent wait always carries a band containing its nominal. -/
theorem intelligent_band (td : Nat) (l n : Option SrcAction) :
    ∃ t mn mx,
      (generateIntelligentWaitAction td l n).config.timeout = some t ∧
      (generateIntelligentWaitAction td l n).config.timeoutMin = some mn ∧
      (generateIntelligentWaitAction td l n).config.timeoutMax = some mx ∧
      mn ≤ t ∧ t ≤ mx := by
  have h1000 : 1000 ≤ intelligentNominal td l n := by
    rw [intelligentNominal_eq]
    omega
  have h30000 : intelligentNominal td l n ≤ 30000 := intelligentNominal_le td l n
  obtain ⟨hs1, hs2⟩ := floorMul07_sandwich _ h30000
  obtain ⟨hq1, hq2⟩ := floorMul14_sandwich _ h30000
  simp only [generateIntelligentWaitAction]
  split_ifs with hgt
  · exact ⟨_, _, _, rfl, rfl, rfl, by omega, by omega⟩
  · exact ⟨_, _, _, rfl, rfl, rfl, by omega, by omega⟩

/-- A waitTime element of a per-action conversion carries a band
containing its nominal (only the formSubmit expansion produces one). -/
theorem mem_convertAction_band (now : Nat) (a : SrcAction) (c : Nat) (r : RPAAction)
    (hr : r ∈ convertActionToAdsPowerRPA now a c) (hw : r.type = "waitTime") :
    ∃ t mn mx, r.config.timeout = some t ∧ r.config.timeoutMin = some mn ∧
      r.config.timeoutMax = some mx ∧ mn ≤ t ∧ t ≤ mx := by
  unfold convertActionToAdsPowerRPA at hr
  split_ifs at hr <;> simp at hr
  case _ => subst hr; simp at hw
  case _ => subst hr; simp at hw
  case _ => subst hr; simp [convertClickToAdsPowerRPA] at hw
  case _ => subst hr; simp [convertInputToAdsPowerRPA] at hw
  case _ => subst hr; simp [convertKeyboardToAdsPowerRPA] at hw
  case _ => subst hr; simp [convertScrollToAdsPowerRPA] at hw
  case _ =>
    rcases hr with hr | hr
    · subst hr; simp at hw
    · subst hr
      exact ⟨8000, 5000, 12000, rfl, rfl, rfl, by norm_num, by norm_num⟩
  case _ => subst hr; simp at hw

/-- **C5** (amended).  For logs in which every action carries a positive
timestamp, export is deterministic up to the per-action wall-clock
`timestamp` config field: two invocations agree on every other field
(including the randomized-interval bounds, which are deterministic
functions of the log); and every waitTime in any export output carries a
`[timeoutMin, timeoutMax]` band containing its nominal timeout. -/
theorem export_idempotent_spec :
    (∀ (actions : List SrcAction) (now₁ now₂ : Nat),
       (∀ a ∈ actions, ∃ t, a.config.timestamp = some t ∧ 0 < t) →
       (exportRPA now₁ actions).map eraseTs = (exportRPA now₂ actions).map eraseTs) ∧
    (∀ (now : Nat) (actions : List SrcAction) (r : RPAAction), r ∈ exportRPA now actions →
       r.type = "waitTime" →
       ∃ t mn mx, r.config.timeout = some t ∧ r.config.timeoutMin = some mn ∧
         r.config.timeoutMax = some mx ∧ mn ≤ t ∧ t ≤ mx) := by
  constructor
  · intro actions now₁ now₂ h
    show (addSmartGo (convertToRPAFormat now₁ actions)).map eraseTs =
      (addSmartGo (convertToRPAFormat now₂ actions)).map eraseTs
    rw [addSmartGo_eraseTs, addSmartGo_eraseTs, convertToRPAFormat_eraseTs actions now₁ now₂ h]
  · intro now actions r hr hw
    rcases mem_addSmartGo hr with h | ⟨a, b, rfl⟩
    · rcases mem_convertToRPAFormat now actions h with rfl | ⟨td, l', n', rfl⟩ | ⟨a, k, hmem⟩
      · exact ⟨5000, 3000, 8000, rfl, rfl, rfl, by norm_num, by norm_num⟩
      · exact intelligent_band td l' n'
      · exact mem_convertAction_band now a k r hmem hw
    · exact ⟨_, _, _, rfl, rfl, rfl, (band8_15 _).1, (band8_15 _).2⟩

/-- **C5** witness: for the timestamped one-action log, exports at clock
1 and 2 agree after erasing the timestamp fields, and the final wait's
band contains its nominal. -/
theorem export_idempotent_witness :
    (exportRPA 1 demoTsLog).map eraseTs = (exportRPA 2 demoTsLog).map eraseTs ∧
    ∃ t mn mx, finalWaitAction.config.timeout = some t ∧
      finalWaitAction.config.timeoutMin = some mn ∧
      finalWaitAction.config.timeoutMax = some mx ∧ mn ≤ t ∧ t ≤ mx :=
  ⟨export_idempotent_spec.1 demoTsLog 1 2
     (by
       intro a ha
       simp only [demoTsLog, List.mem_singleton] at ha
       subst ha
       exact ⟨100, rfl, by norm_num⟩),
   export_idempotent_spec.2 1 demoTsLog finalWaitAction (by decide) (by decide)⟩

/-- **C5** counterexample: two exports of the same timestamped log at
different clocks produce arrays with identical type sequences and
identical randomized-interval bounds but different per-action `timestamp`
fields — a field not documented as randomized — refuting the claim as
stated. -/
theorem export_counterexample :
    ((exportRPA 1000 demoTsLog).map fun r => r.config.timestamp) ≠
      ((exportRPA 2000 demoTsLog).map fun r => r.config.timestamp) ∧
    ((exportRPA 1000 demoTsLog).map fun r => r.type) =
      ((exportRPA 2000 demoTsLog).map fun r => r.type) ∧
    ((exportRPA 1000 demoTsLog).map fun r => (r.config.timeoutMin, r.config.timeoutMax)) =
      ((exportRPA 2000 demoTsLog).map fun r => (r.config.timeoutMin, r.config.timeoutMax)) := by
  refine ⟨by decide, by decide, by decide⟩

end ActionXS
